import Mathlib

/-!
Verification of the StakeAware subscription backend (render_unified.py).

The Python source is shallowly embedded: the persisted users.json document
becomes an association list from email to record, wall-clock reads of
time.time() become an explicit integer parameter, and the outbound Paystack
verify-by-reference call becomes an explicit input describing the response
the code observed.  Python integer floor division is Int.fdiv; Python
truthiness of strings and ints (empty string and zero are falsy) is made
explicit in small helper functions.
-/

namespace StakeAware

/-- Python truthiness for an optional string: None and the empty string are
falsy; a truthy value is returned as is. -/
def pyTruthy : Option String → Option String
  | none => none
  | some s => if s = "" then none else some s

/-- Python `a or b` for optional strings (left operand kept when truthy). -/
def pyOrOpt (a b : Option String) : Option String :=
  match pyTruthy a with
  | some s => some s
  | none => b

/-- Python `a or b` where the right operand is a plain string. -/
def pyOrStr (a : Option String) (b : String) : String :=
  match pyTruthy a with
  | some s => s
  | none => b

/-- Python truthiness for an optional int: None and 0 are falsy. -/
def pyTruthyInt : Option Int → Option Int
  | none => none
  | some n => if n = 0 then none else some n

/-- Python `a or b` for optional ints. -/
def pyOrOptInt (a b : Option Int) : Option Int :=
  match pyTruthyInt a with
  | some n => some n
  | none => b

/-- The environment-derived configuration the reconciliation logic reads
(module-level constants in render_unified.py, with their defaults). -/
structure Config where
  PAYSTACK_WEBHOOK_SECRET : String
  PAYSTACK_SECRET_KEY : String
  DAILY_PLAN_AMOUNT : Int
  WEEKEND_PLAN_AMOUNT : Int
  DAILY_PLAN_DURATION : Int
  WEEKEND_PLAN_DURATION : Int
  EXPIRY_ALERT_DAYS : Int
deriving Repr, DecidableEq

/-- The defaults hard-coded in the os.getenv calls. -/
def defaultConfig : Config :=
  { PAYSTACK_WEBHOOK_SECRET := ""
    PAYSTACK_SECRET_KEY := ""
    DAILY_PLAN_AMOUNT := 50000
    WEEKEND_PLAN_AMOUNT := 20000
    DAILY_PLAN_DURATION := 30
    WEEKEND_PLAN_DURATION := 30
    EXPIRY_ALERT_DAYS := 3 }

/-- One entry of users.json, exactly the field set written by
grant_or_renew / link_telegram. -/
structure SubRecord where
  email : String
  plan : String
  paystack_reference : String
  expires_at : Int
  active : Bool
  chat_id : Option Int
deriving Repr, DecidableEq

/-- The users.json document: an email-keyed mapping, kept as an association
list in Python dict insertion order (link_telegram scans it in order). -/
abbrev Ledger := List (String × SubRecord)

/-- users.get(email). -/
def getUser : Ledger → String → Option SubRecord
  | [], _ => none
  | (k, v) :: rest, e => if k = e then some v else getUser rest e

/-- users[email] = r (dict update: replace in place, else append). -/
def setUser : Ledger → String → SubRecord → Ledger
  | [], e, r => [(e, r)]
  | (k, v) :: rest, e, r =>
      if k = e then (k, r) :: rest else (k, v) :: setUser rest e r

/-- duration_days = DAILY_PLAN_DURATION if plan == "daily" else WEEKEND_PLAN_DURATION. -/
def duration_days (cfg : Config) (plan : String) : Int :=
  if plan = "daily" then cfg.DAILY_PLAN_DURATION else cfg.WEEKEND_PLAN_DURATION

/-- grant_or_renew(email, plan, reference): the pure transition of the
Grant/Renew engine.  now is the int(time.time()) read; the result is the
saved ledger, the record returned (users[email]) and the action string. -/
def grant_or_renew (cfg : Config) (users : Ledger) (now : Int)
    (email plan reference : String) : Ledger × SubRecord × String :=
  let expires_at : Int := now + duration_days cfg plan * 24 * 3600
  match getUser users email with
  | some prev =>
      if prev.expires_at > now then
        let r : SubRecord :=
          { prev with plan := plan, paystack_reference := reference,
                      expires_at := max prev.expires_at expires_at, active := true }
        (setUser users email r, r, "renewed")
      else
        let r : SubRecord :=
          { email := email, plan := plan, paystack_reference := reference,
            expires_at := expires_at, active := true, chat_id := none }
        (setUser users email r, r, "activated")
  | none =>
      let r : SubRecord :=
        { email := email, plan := plan, paystack_reference := reference,
          expires_at := expires_at, active := true, chat_id := none }
      (setUser users email r, r, "activated")

/-- The nested data.customer object of a Paystack payload. -/
structure PaystackCustomer where
  email : Option String
deriving Repr, DecidableEq

/-- The data.metadata JSON value: absent or falsy, a dict (with an optional
plan_type key), or some non-dict value (the code's isinstance check). -/
inductive JsonMeta where
  | missing
  | dict (plan_type : Option String)
  | nondict
deriving Repr, DecidableEq

/-- md.get("plan_type") if isinstance(md, dict) else None. -/
def metaPlanType : JsonMeta → Option String
  | .dict p => p
  | _ => none

/-- The data object of a Paystack webhook payload, with the fields the
handler reads. -/
structure PaystackData where
  reference : Option String
  customer : Option PaystackCustomer
  customer_email : Option String
  amount : Option Int
  metadata : JsonMeta
deriving Repr, DecidableEq

/-- event_json.get("data", {}) or {} when the data key is absent or falsy. -/
def emptyData : PaystackData :=
  { reference := none, customer := none, customer_email := none,
    amount := none, metadata := .missing }

/-- The webhook payload: the event type string and the data object (none
models an absent or falsy data key). -/
structure EventJson where
  event : Option String
  data : Option PaystackData
deriving Repr, DecidableEq

/-- (data.get("customer") or {}).get("email") or data.get("customer_email"). -/
def resolveEmail (d : PaystackData) : Option String :=
  pyOrOpt (d.customer.bind PaystackCustomer.email) d.customer_email

/-- plan = md plan_type if truthy, else "daily" when amount clears the daily
threshold, else "weekend". -/
def derive_plan (cfg : Config) (mdPlan : Option String) (amount : Int) : String :=
  match pyTruthy mdPlan with
  | some p => p
  | none => if amount ≥ cfg.DAILY_PLAN_AMOUNT then "daily" else "weekend"

/-- The outcome the handler observes from the Paystack verify-by-reference
call: err models any raised exception (network failure, timeout, bad JSON);
ok carries jr.get("status") as a boolean, jr.get("data").get("status"), and
the customer email fields and amount of jr.get("data"). -/
inductive GatewayResp where
  | err
  | ok (status : Bool) (data_status : Option String)
      (customer : Option PaystackCustomer) (customer_email : Option String)
      (amount : Option Int)
deriving Repr, DecidableEq

/-- The PAYSTACK_SECRET_KEY block of handle_paystack_event: skipped when no
key is configured; otherwise the gateway response either rejects the event
(with the code's error message) or overrides email and amount. -/
def gatewayCheck (cfg : Config) (gw : GatewayResp) (email : String)
    (amount : Int) : Except String (String × Int) :=
  if cfg.PAYSTACK_SECRET_KEY = "" then .ok (email, amount)
  else
    match gw with
    | .err => .error "verification error"
    | .ok status data_status customer customer_email gwAmount =>
        if status = false ∨ data_status ≠ some "success" then
          .error "verification failed"
        else
          .ok (pyOrStr (customer.bind PaystackCustomer.email)
                 (pyOrStr customer_email email),
               Int.fdiv (gwAmount.getD (amount * 100)) 100)

/-- The JSON body and HTTP code a route returns. -/
inductive Resp where
  | error (msg : String)
  | ignored
  | ok (email : String)
deriving Repr, DecidableEq

/-- handle_paystack_event(event_json): none for event_json models an empty
or falsy payload; gw is the response the verify-by-reference call would
produce.  Result: response body, HTTP code, and the users.json state after
the call (unchanged unless a grant was applied). -/
def handle_paystack_event (cfg : Config) (users : Ledger) (now : Int)
    (event_json : Option EventJson) (gw : GatewayResp) :
    Resp × Int × Ledger :=
  match event_json with
  | none => (.error "empty payload", 400, users)
  | some ej =>
      if ej.event = some "charge.success" then
        let d := ej.data.getD emptyData
        match pyTruthy d.reference, pyTruthy (resolveEmail d) with
        | some reference, some email =>
            let amount : Int := Int.fdiv (d.amount.getD 0) 100
            match gatewayCheck cfg gw email amount with
            | .error msg => (.error msg, 400, users)
            | .ok (email2, amount2) =>
                let plan := derive_plan cfg (metaPlanType d.metadata) amount2
                let res := grant_or_renew cfg users now email2 plan reference
                (.ok email2, 200, res.1)
        | _, _ => (.error "missing reference or email", 400, users)
      else (.ignored, 200, users)

/-- The parsed JSON body of a /link_telegram request. -/
structure LinkReq where
  chat_id : Option Int
  telegram_id : Option Int
  reference : Option String
  paystack_reference : Option String
deriving Repr, DecidableEq

/-- The scan in link_telegram: first record (in dict insertion order) whose
paystack_reference equals the given reference. -/
def findByRef : Ledger → String → Option (String × SubRecord)
  | [], _ => none
  | (e, u) :: rest, ref =>
      if u.paystack_reference = ref then some (e, u) else findByRef rest ref

/-- link_telegram: resolves chat_id and reference with Python or-fallbacks
and truthiness, scans the ledger, and on a hit sets chat_id, forces
active = true and saves. -/
def link_telegram (users : Ledger) (req : LinkReq) : Resp × Int × Ledger :=
  match pyTruthyInt (pyOrOptInt req.chat_id req.telegram_id),
        pyTruthy (pyOrOpt req.reference req.paystack_reference) with
  | some cid, some ref =>
      match findByRef users ref with
      | none => (.error "user not found", 404, users)
      | some (email, u) =>
          let u2 : SubRecord := { u with chat_id := some cid, active := true }
          (.ok email, 200, setUser users email u2)
  | _, _ => (.error "chat_id and reference are required", 400, users)

/-- An outbound notification emitted by one sweep of _expiry_checker_loop:
a reminder DM to a linked chat, the admin fallback reminder for an
unlinked record, or the admin expiry message. -/
inductive Notif where
  | reminder (chat : Int) (email : String)
  | reminderAdmin (email : String)
  | expiredAdmin (email : String)
deriving Repr, DecidableEq

/-- The body of the per-record work of one iteration of
_expiry_checker_loop: the record as left in users, and the notifications
sent for it, in order. -/
def sweepOne (cfg : Config) (now : Int) (email : String) (u : SubRecord) :
    SubRecord × List Notif :=
  let exp := u.expires_at
  if u.active = true ∧ exp ≠ 0 then
    let notifs :=
      if 0 < exp - now ∧ exp - now ≤ cfg.EXPIRY_ALERT_DAYS * 24 * 3600 then
        match pyTruthyInt u.chat_id with
        | some c => [Notif.reminder c email]
        | none => [Notif.reminderAdmin email]
      else []
    if exp ≤ now then ({ u with active := false }, notifs ++ [Notif.expiredAdmin email])
    else (u, notifs)
  else (u, [])

/-- One full tick of the expiry checker: a single in-order pass over all
records, returning the saved ledger and every notification sent. -/
def expiry_checker_tick (cfg : Config) (now : Int) (users : Ledger) :
    Ledger × List Notif :=
  users.foldl
    (fun acc p =>
      let r := sweepOne cfg now p.1 p.2
      (acc.1 ++ [(p.1, r.1)], acc.2 ++ r.2))
    ([], [])

/-! SHA-512 and HMAC, as used by hashlib.sha512 / hmac.new in
verify_signature.  Bytes are Nats below 256, 64-bit words are Nats reduced
modulo 2^64. -/

/-- Reduce to a 64-bit word. -/
def w64 (n : Nat) : Nat := n &&& (2 ^ 64 - 1)

/-- Rotate a 64-bit word right by n bits. -/
def rotr64 (x n : Nat) : Nat := w64 ((x >>> n) ||| (x <<< (64 - n)))

/-- The Sigma0 function of SHA-512. -/
def bigSigma0 (x : Nat) : Nat := rotr64 x 28 ^^^ rotr64 x 34 ^^^ rotr64 x 39

/-- The Sigma1 function of SHA-512. -/
def bigSigma1 (x : Nat) : Nat := rotr64 x 14 ^^^ rotr64 x 18 ^^^ rotr64 x 41

/-- The sigma0 message-schedule function of SHA-512. -/
def smallSigma0 (x : Nat) : Nat := rotr64 x 1 ^^^ rotr64 x 8 ^^^ (x >>> 7)

/-- The sigma1 message-schedule function of SHA-512. -/
def smallSigma1 (x : Nat) : Nat := rotr64 x 19 ^^^ rotr64 x 61 ^^^ (x >>> 6)

/-- The Ch function of SHA-512 (bitwise e ? f : g). -/
def ch64 (e f g : Nat) : Nat := (e &&& f) ^^^ ((e ^^^ (2 ^ 64 - 1)) &&& g)

/-- The Maj function of SHA-512 (bitwise majority). -/
def maj64 (a b c : Nat) : Nat := (a &&& b) ^^^ (a &&& c) ^^^ (b &&& c)

/-- The 80 SHA-512 round constants. -/
def K512 : List Nat := [
  4794697086780616226, 8158064640168781261, 13096744586834688815,
  16840607885511220156, 4131703408338449720, 6480981068601479193,
  10538285296894168987, 12329834152419229976, 15566598209576043074,
  1334009975649890238, 2608012711638119052, 6128411473006802146,
  8268148722764581231, 9286055187155687089, 11230858885718282805,
  13951009754708518548, 16472876342353939154, 17275323862435702243,
  1135362057144423861, 2597628984639134821, 3308224258029322869,
  5365058923640841347, 6679025012923562964, 8573033837759648693,
  10970295158949994411, 12119686244451234320, 12683024718118986047,
  13788192230050041572, 14330467153632333762, 15395433587784984357,
  489312712824947311, 1452737877330783856, 2861767655752347644,
  3322285676063803686, 5560940570517711597, 5996557281743188959,
  7280758554555802590, 8532644243296465576, 9350256976987008742,
  10552545826968843579, 11727347734174303076, 12113106623233404929,
  14000437183269869457, 14369950271660146224, 15101387698204529176,
  15463397548674623760, 17586052441742319658, 1182934255886127544,
  1847814050463011016, 2177327727835720531, 2830643537854262169,
  3796741975233480872, 4115178125766777443, 5681478168544905931,
  6601373596472566643, 7507060721942968483, 8399075790359081724,
  8693463985226723168, 9568029438360202098, 10144078919501101548,
  10430055236837252648, 11840083180663258601, 13761210420658862357,
  14299343276471374635, 14566680578165727644, 15097957966210449927,
  16922976911328602910, 17689382322260857208, 500013540394364858,
  748580250866718886, 1242879168328830382, 1977374033974150939,
  2944078676154940804, 3659926193048069267, 4368137639120453308,
  4836135668995329356, 5532061633213252278, 6448918945643986474,
  6902733635092675308, 7801388544844847127]

/-- The SHA-512 initial hash value. -/
def H512init : List Nat := [
  7640891576956012808,
  13503953896175478587,
  4354685564936845355,
  11912009170470909681,
  5840696475078001361,
  11170449401992604703,
  2270897969802886507,
  6620516959819538809]

/-- Split a list into chunks of n elements (fuel-driven, fuel = length). -/
def chunkAux {α : Type} : Nat → Nat → List α → List (List α)
  | 0, _, _ => []
  | _, _, [] => []
  | fuel + 1, n, l => l.take n :: chunkAux fuel n (l.drop n)

/-- Split a list into chunks of n elements. -/
def chunkList {α : Type} (n : Nat) (l : List α) : List (List α) :=
  chunkAux l.length n l

/-- Big-endian bytes to a word. -/
def word64OfBytes (bs : List Nat) : Nat := bs.foldl (fun acc b => acc * 256 + b) 0

/-- A value as n big-endian bytes. -/
def toBytesBE : Nat → Nat → List Nat
  | 0, _ => []
  | n + 1, x => toBytesBE n (x / 256) ++ [x % 256]

/-- Extend the 16 message words of a block to the 80-word schedule. -/
def sha512Schedule (ws : List Nat) : List Nat :=
  (List.range 64).foldl
    (fun w i =>
      w ++ [w64 (smallSigma1 w[i + 14]! + w[i + 9]! + smallSigma0 w[i + 1]! + w[i]!)])
    ws

/-- The eight working variables of the SHA-512 compression loop. -/
structure SHA512State where
  a : Nat
  b : Nat
  c : Nat
  d : Nat
  e : Nat
  f : Nat
  g : Nat
  h : Nat
deriving Repr, DecidableEq

/-- One SHA-512 round. -/
def sha512Round (k w : Nat) (s : SHA512State) : SHA512State :=
  let t1 := w64 (s.h + bigSigma1 s.e + ch64 s.e s.f s.g + k + w)
  let t2 := w64 (bigSigma0 s.a + maj64 s.a s.b s.c)
  ⟨w64 (t1 + t2), s.a, s.b, s.c, w64 (s.d + t1), s.e, s.f, s.g⟩

/-- Compress one 128-byte block into the hash state. -/
def sha512Compress (hs : List Nat) (block : List Nat) : List Nat :=
  let w := sha512Schedule ((chunkList 8 block).map word64OfBytes)
  let s0 : SHA512State :=
    ⟨hs[0]!, hs[1]!, hs[2]!, hs[3]!, hs[4]!, hs[5]!, hs[6]!, hs[7]!⟩
  let s := (List.range 80).foldl (fun st i => sha512Round K512[i]! w[i]! st) s0
  [w64 (hs[0]! + s.a), w64 (hs[1]! + s.b), w64 (hs[2]! + s.c), w64 (hs[3]! + s.d),
   w64 (hs[4]! + s.e), w64 (hs[5]! + s.f), w64 (hs[6]! + s.g), w64 (hs[7]! + s.h)]

/-- SHA-512 padding: 0x80, zeros, and the 128-bit big-endian bit length. -/
def sha512Pad (msg : List Nat) : List Nat :=
  let l := msg.length
  let zeros := (128 - ((l + 17) % 128)) % 128
  msg ++ [0x80] ++ List.replicate zeros 0 ++ toBytesBE 16 (l * 8)

/-- The padded message split into its 128-byte blocks. -/
def sha512Blocks (msg : List Nat) : List (List Nat) :=
  chunkList 128 (sha512Pad msg)

/-- The eight final state words as 64 big-endian bytes. -/
def wordsToBytes (ws : List Nat) : List Nat :=
  ws.foldl (fun acc w => acc ++ toBytesBE 8 w) []

/-- SHA-512 of a byte list, as a 64-byte list. -/
def sha512 (msg : List Nat) : List Nat :=
  wordsToBytes ((sha512Blocks msg).foldl sha512Compress H512init)

/-- One lowercase hex digit. -/
def hexDigitChar (n : Nat) : Char :=
  if n < 10 then Char.ofNat (48 + n) else Char.ofNat (87 + n)

/-- Lowercase hex of a byte list (the .hexdigest() format). -/
def hexOfBytes (bs : List Nat) : String :=
  String.mk (bs.foldr (fun b acc => hexDigitChar (b / 16) :: hexDigitChar (b % 16) :: acc) [])

/-- The key, hashed if longer than the block and zero-padded to 128 bytes. -/
def hmacKeyBlock (key : List Nat) : List Nat :=
  let k0 := if key.length > 128 then sha512 key else key
  k0 ++ List.replicate (128 - k0.length) 0

/-- HMAC-SHA512 with a 128-byte block size, as hmac.new(key, msg, sha512). -/
def hmacSha512 (key msg : List Nat) : List Nat :=
  sha512 (((hmacKeyBlock key).map (fun b => b ^^^ 0x5c)) ++
    sha512 (((hmacKeyBlock key).map (fun b => b ^^^ 0x36)) ++ msg))

/-- UTF-8 bytes of a character, as str.encode() produces. -/
def utf8EncodeCharBytes (c : Char) : List Nat :=
  let n := c.toNat
  if n < 0x80 then [n]
  else if n < 0x800 then [0xC0 ||| (n >>> 6), 0x80 ||| (n &&& 0x3F)]
  else if n < 0x10000 then
    [0xE0 ||| (n >>> 12), 0x80 ||| ((n >>> 6) &&& 0x3F), 0x80 ||| (n &&& 0x3F)]
  else
    [0xF0 ||| (n >>> 18), 0x80 ||| ((n >>> 12) &&& 0x3F),
     0x80 ||| ((n >>> 6) &&& 0x3F), 0x80 ||| (n &&& 0x3F)]

/-- UTF-8 bytes of a string. -/
def utf8Bytes (s : String) : List Nat :=
  s.data.foldr (fun c acc => utf8EncodeCharBytes c ++ acc) []

/-- verify_signature(req): secret is PAYSTACK_WEBHOOK_SECRET, sig the
x-paystack-signature header, body the exact raw request bytes.  With no
secret configured it passes unconditionally; otherwise it compares the
header against the hex HMAC-SHA512 of the body under the secret
(hmac.compare_digest, i.e. equality). -/
def verify_signature (secret sig : String) (body : List Nat) : Bool :=
  if secret = "" then true
  else sig == hexOfBytes (hmacSha512 (utf8Bytes secret) body)

/-! Helper lemmas about the ledger operations. -/

theorem getUser_setUser_self (l : Ledger) (e : String) (r : SubRecord) :
    getUser (setUser l e r) e = some r := by
  induction l with
  | nil => simp [setUser, getUser]
  | cons p rest ih =>
      obtain ⟨k, v⟩ := p
      by_cases h : k = e <;> simp [setUser, getUser, h, ih]

theorem grant_getUser_result (cfg : Config) (users : Ledger) (now : Int)
    (email plan reference : String) :
    getUser (grant_or_renew cfg users now email plan reference).1 email
      = some (grant_or_renew cfg users now email plan reference).2.1 := by
  unfold grant_or_renew
  cases hg : getUser users email with
  | none => simp [getUser_setUser_self]
  | some prev =>
      by_cases h : prev.expires_at > now <;> simp [h, getUser_setUser_self]

theorem duration_days_nonneg (cfg : Config) (plan : String)
    (hd : 0 ≤ cfg.DAILY_PLAN_DURATION) (hw : 0 ≤ cfg.WEEKEND_PLAN_DURATION) :
    0 ≤ duration_days cfg plan := by
  unfold duration_days; split <;> assumption

theorem grant_step_expiry_mono (cfg : Config) (users : Ledger) (now : Int)
    (email plan reference : String) (prev : SubRecord)
    (hd : 0 ≤ cfg.DAILY_PLAN_DURATION) (hw : 0 ≤ cfg.WEEKEND_PLAN_DURATION)
    (hget : getUser users email = some prev) :
    prev.expires_at ≤ (grant_or_renew cfg users now email plan reference).2.1.expires_at := by
  have hdur : 0 ≤ duration_days cfg plan * 24 * 3600 := by
    have := duration_days_nonneg cfg plan hd hw
    positivity
  unfold grant_or_renew
  rw [hget]
  by_cases h : prev.expires_at > now
  · simp [h]
  · simp only [h, if_false]
    have : prev.expires_at ≤ now := not_lt.mp h
    simpa using le_trans this (by linarith)

/-- Events for one email, each with its own int(time.time()) read, its plan
string and its payment reference, applied in order through grant_or_renew. -/
def applyEvents (cfg : Config) (email : String) :
    Ledger → List (Int × String × String) → Ledger
  | users, [] => users
  | users, ev :: rest =>
      applyEvents cfg email (grant_or_renew cfg users ev.1 email ev.2.1 ev.2.2).1 rest

/-- C1: a grant applied to an existing, still-active record sets the new
expiry to max(existing.expires_at, now + plan duration) rather than adding
the duration on top of the remaining time, sets active to true, and
reports the action as renewed. -/
theorem grant_renewal_caps_at_max (cfg : Config) (users : Ledger) (now : Int)
    (email plan reference : String) (prev : SubRecord)
    (hget : getUser users email = some prev) (hact : prev.expires_at > now) :
    (grant_or_renew cfg users now email plan reference).2.1.expires_at
      = max prev.expires_at (now + duration_days cfg plan * 24 * 3600) ∧
    (grant_or_renew cfg users now email plan reference).2.1.active = true ∧
    (grant_or_renew cfg users now email plan reference).2.2 = "renewed" := by
  simp [grant_or_renew, hget, hact]

/-- A still-active record with 10 days left, renewed by a 30-day plan at
now = 0: the new expiry is 30 days (2592000 s), not 40 days. -/
def rec10 : SubRecord :=
  { email := "a@x.com", plan := "daily", paystack_reference := "R0",
    expires_at := 864000, active := true, chat_id := some 7 }

/-- C1 witness: the renewal-cap rule evaluated on the spec's concrete
scenario (active record at now + 10 days, 30-day plan, result now + 30 days). -/
theorem grant_renewal_caps_at_max_witness :
    (getUser [("a@x.com", rec10)] "a@x.com" = some rec10 ∧ rec10.expires_at > 0) ∧
    ((grant_or_renew defaultConfig [("a@x.com", rec10)] 0 "a@x.com" "daily" "R1").2.1.expires_at
       = max rec10.expires_at (0 + duration_days defaultConfig "daily" * 24 * 3600) ∧
     (grant_or_renew defaultConfig [("a@x.com", rec10)] 0 "a@x.com" "daily" "R1").2.1.active = true ∧
     (grant_or_renew defaultConfig [("a@x.com", rec10)] 0 "a@x.com" "daily" "R1").2.2 = "renewed") ∧
    max rec10.expires_at (0 + duration_days defaultConfig "daily" * 24 * 3600) = 2592000 :=
  ⟨⟨by decide, by decide⟩,
   grant_renewal_caps_at_max defaultConfig [("a@x.com", rec10)] 0 "a@x.com" "daily" "R1"
     rec10 (by decide) (by decide),
   by decide⟩

/-- C2: the code has no idempotency guard.  Delivering the identical event
a second time is applied again: the second grant_or_renew call reports the
action "renewed" (a second Activated/Renewed transition with a second
admin notification), not an Ignored no-op; no set of already-applied
references exists anywhere in the source. -/
theorem duplicate_event_not_ignored :
    (grant_or_renew defaultConfig
        (grant_or_renew defaultConfig [] 1000 "a@x.com" "daily" "R1").1
        1000 "a@x.com" "daily" "R1").2.2 = "renewed" ∧
    (grant_or_renew defaultConfig
        (grant_or_renew defaultConfig [] 1000 "a@x.com" "daily" "R1").1
        1000 "a@x.com" "daily" "R1").2.2 ≠ "ignored" := by
  constructor <;> decide

/-- C3: for a fixed email, expires_at never decreases across any sequence
of events applied through grant_or_renew (given the configured plan
durations are nonnegative day counts). -/
theorem expires_at_monotone (cfg : Config) (email : String)
    (hd : 0 ≤ cfg.DAILY_PLAN_DURATION) (hw : 0 ≤ cfg.WEEKEND_PLAN_DURATION)
    (evs : List (Int × String × String)) :
    ∀ (users : Ledger) (r0 : SubRecord), getUser users email = some r0 →
      ∃ r1, getUser (applyEvents cfg email users evs) email = some r1 ∧
        r0.expires_at ≤ r1.expires_at := by
  induction evs with
  | nil => exact fun users r0 h0 => ⟨r0, h0, le_refl _⟩
  | cons ev rest ih =>
      intro users r0 h0
      obtain ⟨r1, hr1, hle⟩ :=
        ih (grant_or_renew cfg users ev.1 email ev.2.1 ev.2.2).1
           (grant_or_renew cfg users ev.1 email ev.2.1 ev.2.2).2.1
           (grant_getUser_result cfg users ev.1 email ev.2.1 ev.2.2)
      exact ⟨r1, by simpa [applyEvents] using hr1,
        le_trans (grant_step_expiry_mono cfg users ev.1 email ev.2.1 ev.2.2 r0 hd hw h0) hle⟩

/-- C3 witness: monotonicity evaluated on a concrete two-event sequence
(an expired record re-activated, then renewed). -/
theorem expires_at_monotone_witness :
    (0 ≤ defaultConfig.DAILY_PLAN_DURATION ∧ 0 ≤ defaultConfig.WEEKEND_PLAN_DURATION ∧
     getUser [("e@x.com", rec10)] "e@x.com" = some rec10) ∧
    (∃ r1, getUser (applyEvents defaultConfig "e@x.com" [("e@x.com", rec10)]
        [(900000, "weekend", "R1"), (950000, "daily", "R2")]) "e@x.com" = some r1 ∧
      rec10.expires_at ≤ r1.expires_at) :=
  ⟨⟨by decide, by decide, by decide⟩,
   expires_at_monotone defaultConfig "e@x.com" (by decide) (by decide)
     [(900000, "weekend", "R1"), (950000, "daily", "R2")]
     [("e@x.com", rec10)] rec10 (by decide)⟩

/-- C10: grant_or_renew preserves chat_id only on the renewal branch; on
the activation branch (no record, or an expired one) it writes a fresh
record with chat_id = None, erasing a previously linked chat identity. -/
theorem grant_chat_id_frame (cfg : Config) (users : Ledger) (now : Int)
    (email plan reference : String) (prev : SubRecord)
    (hget : getUser users email = some prev) :
    (prev.expires_at > now →
        (grant_or_renew cfg users now email plan reference).2.1.chat_id = prev.chat_id) ∧
    (¬ prev.expires_at > now →
        (grant_or_renew cfg users now email plan reference).2.1.chat_id = none) := by
  constructor <;> intro h <;> simp [grant_or_renew, hget, h]

/-- An expired record that had been linked to chat 123. -/
def recExpired : SubRecord :=
  { email := "e@x.com", plan := "daily", paystack_reference := "R0",
    expires_at := 100, active := true, chat_id := some 123 }

/-- C10 witness: a grant applied to the expired linked record leaves
chat_id = none in the stored record. -/
theorem grant_chat_id_frame_witness :
    (getUser [("e@x.com", recExpired)] "e@x.com" = some recExpired ∧
     ¬ recExpired.expires_at > (500 : Int)) ∧
    (grant_or_renew defaultConfig [("e@x.com", recExpired)] 500 "e@x.com" "daily" "R1").2.1.chat_id
      = none :=
  ⟨⟨by decide, by decide⟩,
   (grant_chat_id_frame defaultConfig [("e@x.com", recExpired)] 500 "e@x.com" "daily" "R1"
      recExpired (by decide)).2 (by decide)⟩

/-- C7: link_telegram scans all records for one whose stored
paystack_reference equals the given reference; on a hit it stores chat_id,
forces active = true and answers 200 with the record's email; with no hit
it answers 404. -/
theorem link_telegram_scan (users : Ledger) (cid : Int) (ref : String)
    (hc : cid ≠ 0) (hr : ref ≠ "") :
    (∀ email u, findByRef users ref = some (email, u) →
        link_telegram users ⟨some cid, none, some ref, none⟩ =
          (.ok email, 200,
           setUser users email { u with chat_id := some cid, active := true })) ∧
    (findByRef users ref = none →
        link_telegram users ⟨some cid, none, some ref, none⟩ =
          (.error "user not found", 404, users)) := by
  constructor
  · intro email u hf
    simp [link_telegram, pyTruthyInt, pyOrOptInt, pyTruthy, pyOrOpt, hc, hr, hf]
  · intro hf
    simp [link_telegram, pyTruthyInt, pyOrOptInt, pyTruthy, pyOrOpt, hc, hr, hf]

/-- The ledger after scenario A (grant R1 for a@x.com) followed by
scenario B (a second payment R2 before R1's window expires, which
overwrites the stored reference). -/
def linkLedger : Ledger :=
  (grant_or_renew defaultConfig
    (grant_or_renew defaultConfig [] 1000 "a@x.com" "daily" "R1").1
    2000 "a@x.com" "weekend" "R2").1

/-- C7 witness: after the reference was overwritten from R1 to R2, a link
request carrying R1 gets 404 and the ledger is unchanged. -/
theorem link_telegram_scan_witness :
    ((123 : Int) ≠ 0 ∧ "R1" ≠ "" ∧
     (getUser linkLedger "a@x.com").map SubRecord.paystack_reference = some "R2" ∧
     findByRef linkLedger "R1" = none) ∧
    link_telegram linkLedger ⟨some 123, none, some "R1", none⟩ =
      (.error "user not found", 404, linkLedger) :=
  ⟨⟨by decide, by decide, by decide, by decide⟩,
   (link_telegram_scan linkLedger 123 "R1" (by decide) (by decide)).2 (by decide)⟩

/-- C8: one sweep tick over a record that is active with a nonzero expiry
not after now deactivates it, persists the change, and emits exactly one
expiry notification; any later tick over the now-inactive record emits
nothing and changes nothing. -/
theorem sweep_expiry_exactly_once (cfg : Config) (now now2 : Int)
    (email : String) (u : SubRecord)
    (hact : u.active = true) (hnz : u.expires_at ≠ 0) (hexp : u.expires_at ≤ now) :
    sweepOne cfg now email u = ({ u with active := false }, [Notif.expiredAdmin email]) ∧
    sweepOne cfg now2 email { u with active := false } = ({ u with active := false }, []) ∧
    expiry_checker_tick cfg now [(email, u)] =
      ([(email, { u with active := false })], [Notif.expiredAdmin email]) ∧
    expiry_checker_tick cfg now2 [(email, { u with active := false })] =
      ([(email, { u with active := false })], []) := by
  have h1 : ¬ (0 < u.expires_at - now) := by omega
  refine ⟨?_, ?_, ?_, ?_⟩
  · simp [sweepOne, hact, hnz, hexp, h1]
  · simp [sweepOne]
  · simp [expiry_checker_tick, sweepOne, hact, hnz, hexp, h1]
  · simp [expiry_checker_tick, sweepOne]

/-- A record one second past its expiry at now = 100. -/
def rec99 : SubRecord :=
  { email := "s@x.com", plan := "daily", paystack_reference := "R5",
    expires_at := 99, active := true, chat_id := some 5 }

/-- C8 witness: the sweep-crossing scenario (expires_at = now - 1) on
concrete input, including the next tick an hour later. -/
theorem sweep_expiry_exactly_once_witness :
    (rec99.active = true ∧ rec99.expires_at ≠ 0 ∧ rec99.expires_at ≤ (100 : Int)) ∧
    (sweepOne defaultConfig 100 "s@x.com" rec99 =
        ({ rec99 with active := false }, [Notif.expiredAdmin "s@x.com"]) ∧
     sweepOne defaultConfig 3700 "s@x.com" { rec99 with active := false } =
        ({ rec99 with active := false }, []) ∧
     expiry_checker_tick defaultConfig 100 [("s@x.com", rec99)] =
        ([("s@x.com", { rec99 with active := false })], [Notif.expiredAdmin "s@x.com"]) ∧
     expiry_checker_tick defaultConfig 3700 [("s@x.com", { rec99 with active := false })] =
        ([("s@x.com", { rec99 with active := false })], [])) :=
  ⟨⟨by decide, by decide, by decide⟩,
   sweep_expiry_exactly_once defaultConfig 100 3700 "s@x.com" rec99
     (by decide) (by decide) (by decide)⟩

/-- An active record inside the 3-day alert window, linked to chat 123.
SubRecord carries no lastReminderSentAt field: grant_or_renew and
link_telegram never write one, so the sweeper has no marker to consult. -/
def recInWindow : SubRecord :=
  { email := "w@x.com", plan := "daily", paystack_reference := "R9",
    expires_at := 250000, active := true, chat_id := some 123 }

/-- C9: the sweeper has no lastReminderSentAt marker, so a record that
stays inside the alert window is sent a reminder on every hourly tick,
not exactly once per window: two consecutive ticks each emit a reminder
and leave the record unchanged. -/
theorem sweep_reminder_fires_every_tick :
    sweepOne defaultConfig 100000 "w@x.com" recInWindow =
      (recInWindow, [Notif.reminder 123 "w@x.com"]) ∧
    sweepOne defaultConfig 103600 "w@x.com" recInWindow =
      (recInWindow, [Notif.reminder 123 "w@x.com"]) ∧
    expiry_checker_tick defaultConfig 103600
        (expiry_checker_tick defaultConfig 100000 [("w@x.com", recInWindow)]).1 =
      ([("w@x.com", recInWindow)], [Notif.reminder 123 "w@x.com"]) := by
  refine ⟨by decide, by decide, by decide⟩

/-- The data object of scenario A: reference R1, customer email a@x.com,
amount field 50000, no plan metadata. -/
def dataA : PaystackData :=
  { reference := some "R1", customer := some ⟨some "a@x.com"⟩,
    customer_email := none, amount := some 50000, metadata := .missing }

/-- The charge.success payload of scenario A. -/
def eventA : EventJson :=
  { event := some "charge.success", data := some dataA }

/-- C4 counterexample: on an empty ledger with the default daily threshold
50000, the scenario-A event with amount field 50000 produces a record with
plan = "weekend", not "daily": the handler divides the amount field by 100
(minor units) before comparing it to the threshold, and 500 < 50000. -/
theorem scenarioA_plan_is_weekend :
    (getUser (handle_paystack_event defaultConfig [] 0 (some eventA) .err).2.2
        "a@x.com").map SubRecord.plan = some "weekend" ∧
    (getUser (handle_paystack_event defaultConfig [] 0 (some eventA) .err).2.2
        "a@x.com").map SubRecord.plan ≠ some "daily" := by
  constructor <;> decide

/-- C4 amended: the scenario-A event on an empty ledger creates a new
record with plan = "weekend" (50000 minor units convert to 500, below the
daily threshold 50000), expires_at = now + 30 days, active = true, and the
grant action is "activated". -/
theorem scenarioA_event_activates (now : Int) :
    handle_paystack_event defaultConfig [] now (some eventA) .err =
      (.ok "a@x.com", 200,
       [("a@x.com",
         { email := "a@x.com", plan := "weekend", paystack_reference := "R1",
           expires_at := now + 2592000, active := true, chat_id := none })]) ∧
    (grant_or_renew defaultConfig [] now "a@x.com" "weekend" "R1").2.2 = "activated" := by
  constructor <;> rfl

/-- A configuration with a Paystack secret key, which turns on the
verify-by-reference call in handle_paystack_event. -/
def cfgSK : Config := { defaultConfig with PAYSTACK_SECRET_KEY := "sk_test" }

/-- C6: with a gateway secret key configured, a failed verify-by-reference
call (exception or timeout) or a non-success lookup status makes
handle_paystack_event answer 400 with the ledger unchanged; a successful
lookup makes the gateway's email and amount (with the code's fallbacks)
the ones used for the grant. -/
theorem handle_gateway_fail_closed (cfg : Config) (users : Ledger) (now : Int)
    (d : PaystackData) (gw : GatewayResp) (reference email : String)
    (hkey : cfg.PAYSTACK_SECRET_KEY ≠ "")
    (href : pyTruthy d.reference = some reference)
    (hem : pyTruthy (resolveEmail d) = some email) :
    (gw = .err →
       handle_paystack_event cfg users now (some ⟨some "charge.success", some d⟩) gw
         = (.error "verification error", 400, users)) ∧
    (∀ st ds c ce am, gw = .ok st ds c ce am → (st = false ∨ ds ≠ some "success") →
       handle_paystack_event cfg users now (some ⟨some "charge.success", some d⟩) gw
         = (.error "verification failed", 400, users)) ∧
    (∀ c ce am, gw = .ok true (some "success") c ce am →
       handle_paystack_event cfg users now (some ⟨some "charge.success", some d⟩) gw
         = (.ok (pyOrStr (c.bind PaystackCustomer.email) (pyOrStr ce email)), 200,
            (grant_or_renew cfg users now
               (pyOrStr (c.bind PaystackCustomer.email) (pyOrStr ce email))
               (derive_plan cfg (metaPlanType d.metadata)
                  (Int.fdiv (am.getD (Int.fdiv (d.amount.getD 0) 100 * 100)) 100))
               reference).1)) := by
  refine ⟨?_, ?_, ?_⟩
  · intro hgw
    subst hgw
    simp [handle_paystack_event, href, hem, gatewayCheck, hkey]
  · intro st ds c ce am hgw hfail
    subst hgw
    simp [handle_paystack_event, href, hem, gatewayCheck, hkey, hfail]
  · intro c ce am hgw
    subst hgw
    simp [handle_paystack_event, href, hem, gatewayCheck, hkey]

/-- C6 witness: with a key configured and the lookup raising (network
error or timeout), the scenario-A event is rejected with 400 and the empty
ledger stays empty. -/
theorem handle_gateway_fail_closed_witness :
    (cfgSK.PAYSTACK_SECRET_KEY ≠ "" ∧ pyTruthy dataA.reference = some "R1" ∧
     pyTruthy (resolveEmail dataA) = some "a@x.com") ∧
    handle_paystack_event cfgSK [] 0 (some ⟨some "charge.success", some dataA⟩) .err
      = (.error "verification error", 400, []) :=
  ⟨⟨by decide, by decide, by decide⟩,
   (handle_gateway_fail_closed cfgSK [] 0 dataA .err "R1" "a@x.com"
      (by decide) (by decide) (by decide)).1 rfl⟩

/-- A three-byte raw body ("abc"). -/
def abcBody : List Nat := [0x61, 0x62, 0x63]

/-- The same body with its last byte mutated ("abd"). -/
def abdBody : List Nat := [0x61, 0x62, 0x64]

/-- The valid signature header for abcBody under the secret "secret". -/
def goodSig : String := hexOfBytes (hmacSha512 (utf8Bytes "secret") abcBody)

/-! The two concrete HMAC digests of the C5 instance, materialized stage by
stage (one 128-byte block compression per lemma) so that each equality is a
small closed computation. -/

/-- The UTF-8 bytes of the secret used in the concrete C5 instance. -/
def keyLit : List Nat := [
  115, 101, 99, 114, 101, 116]

/-- The secret zero-padded to the 128-byte HMAC block. -/
def kLit : List Nat := [
  115, 101, 99, 114, 101, 116, 0, 0, 0, 0, 0, 0, 0, 0, 0, 0,
  0, 0, 0, 0, 0, 0, 0, 0, 0, 0, 0, 0, 0, 0, 0, 0,
  0, 0, 0, 0, 0, 0, 0, 0, 0, 0, 0, 0, 0, 0, 0, 0,
  0, 0, 0, 0, 0, 0, 0, 0, 0, 0, 0, 0, 0, 0, 0, 0,
  0, 0, 0, 0, 0, 0, 0, 0, 0, 0, 0, 0, 0, 0, 0, 0,
  0, 0, 0, 0, 0, 0, 0, 0, 0, 0, 0, 0, 0, 0, 0, 0,
  0, 0, 0, 0, 0, 0, 0, 0, 0, 0, 0, 0, 0, 0, 0, 0,
  0, 0, 0, 0, 0, 0, 0, 0, 0, 0, 0, 0, 0, 0, 0, 0]

/-- The inner-pad block (key XOR 0x36). -/
def ipadLit : List Nat := [
  69, 83, 85, 68, 83, 66, 54, 54, 54, 54, 54, 54, 54, 54, 54, 54,
  54, 54, 54, 54, 54, 54, 54, 54, 54, 54, 54, 54, 54, 54, 54, 54,
  54, 54, 54, 54, 54, 54, 54, 54, 54, 54, 54, 54, 54, 54, 54, 54,
  54, 54, 54, 54, 54, 54, 54, 54, 54, 54, 54, 54, 54, 54, 54, 54,
  54, 54, 54, 54, 54, 54, 54, 54, 54, 54, 54, 54, 54, 54, 54, 54,
  54, 54, 54, 54, 54, 54, 54, 54, 54, 54, 54, 54, 54, 54, 54, 54,
  54, 54, 54, 54, 54, 54, 54, 54, 54, 54, 54, 54, 54, 54, 54, 54,
  54, 54, 54, 54, 54, 54, 54, 54, 54, 54, 54, 54, 54, 54, 54, 54]

/-- The outer-pad block (key XOR 0x5c). -/
def opadLit : List Nat := [
  47, 57, 63, 46, 57, 40, 92, 92, 92, 92, 92, 92, 92, 92, 92, 92,
  92, 92, 92, 92, 92, 92, 92, 92, 92, 92, 92, 92, 92, 92, 92, 92,
  92, 92, 92, 92, 92, 92, 92, 92, 92, 92, 92, 92, 92, 92, 92, 92,
  92, 92, 92, 92, 92, 92, 92, 92, 92, 92, 92, 92, 92, 92, 92, 92,
  92, 92, 92, 92, 92, 92, 92, 92, 92, 92, 92, 92, 92, 92, 92, 92,
  92, 92, 92, 92, 92, 92, 92, 92, 92, 92, 92, 92, 92, 92, 92, 92,
  92, 92, 92, 92, 92, 92, 92, 92, 92, 92, 92, 92, 92, 92, 92, 92,
  92, 92, 92, 92, 92, 92, 92, 92, 92, 92, 92, 92, 92, 92, 92, 92]

/-- The SHA-512 state after compressing the inner-pad block. -/
def sIpadLit : List Nat := [
  2195059840351887604,
  13396934538626618705,
  14884374818673947937,
  14938636430260741529,
  7264450493270743082,
  18007440503881472393,
  14733019654735614625,
  11337400293541311812]

/-- The SHA-512 state after compressing the outer-pad block. -/
def sOpadLit : List Nat := [
  15581761498645512695,
  13865238378092685440,
  10294948593703926216,
  11656324935702723461,
  14237965663665323626,
  6929147538033926176,
  5882981861753621625,
  5149624565774307028]

/-- ipad followed by the body abc. -/
def inMsgAbc : List Nat := [
  69, 83, 85, 68, 83, 66, 54, 54, 54, 54, 54, 54, 54, 54, 54, 54,
  54, 54, 54, 54, 54, 54, 54, 54, 54, 54, 54, 54, 54, 54, 54, 54,
  54, 54, 54, 54, 54, 54, 54, 54, 54, 54, 54, 54, 54, 54, 54, 54,
  54, 54, 54, 54, 54, 54, 54, 54, 54, 54, 54, 54, 54, 54, 54, 54,
  54, 54, 54, 54, 54, 54, 54, 54, 54, 54, 54, 54, 54, 54, 54, 54,
  54, 54, 54, 54, 54, 54, 54, 54, 54, 54, 54, 54, 54, 54, 54, 54,
  54, 54, 54, 54, 54, 54, 54, 54, 54, 54, 54, 54, 54, 54, 54, 54,
  54, 54, 54, 54, 54, 54, 54, 54, 54, 54, 54, 54, 54, 54, 54, 54,
  97, 98, 99]

/-- The second (padded) block of the inner hash input for abc. -/
def bInAbc : List Nat := [
  97, 98, 99, 128, 0, 0, 0, 0, 0, 0, 0, 0, 0, 0, 0, 0,
  0, 0, 0, 0, 0, 0, 0, 0, 0, 0, 0, 0, 0, 0, 0, 0,
  0, 0, 0, 0, 0, 0, 0, 0, 0, 0, 0, 0, 0, 0, 0, 0,
  0, 0, 0, 0, 0, 0, 0, 0, 0, 0, 0, 0, 0, 0, 0, 0,
  0, 0, 0, 0, 0, 0, 0, 0, 0, 0, 0, 0, 0, 0, 0, 0,
  0, 0, 0, 0, 0, 0, 0, 0, 0, 0, 0, 0, 0, 0, 0, 0,
  0, 0, 0, 0, 0, 0, 0, 0, 0, 0, 0, 0, 0, 0, 0, 0,
  0, 0, 0, 0, 0, 0, 0, 0, 0, 0, 0, 0, 0, 0, 4, 24]

/-- The inner hash state after both blocks for abc. -/
def sInnerAbc : List Nat := [
  3092345881284356026,
  14984815665576429818,
  9913129069422018865,
  15100589136656128725,
  7425384151109698856,
  17284673412343964958,
  6018637190566918308,
  13975182716062304101]

/-- The inner SHA-512 digest for abc. -/
def innerDigestAbc : List Nat := [
  42, 234, 56, 49, 240, 152, 167, 186, 207, 244, 194, 116, 115, 100, 72, 250,
  137, 146, 130, 93, 219, 127, 129, 49, 209, 144, 17, 208, 61, 130, 218, 213,
  103, 12, 67, 139, 71, 181, 133, 40, 239, 223, 126, 227, 241, 102, 165, 30,
  83, 134, 126, 162, 255, 178, 56, 164, 193, 241, 210, 162, 246, 18, 135, 101]

/-- opad followed by the inner digest for abc. -/
def outMsgAbc : List Nat := [
  47, 57, 63, 46, 57, 40, 92, 92, 92, 92, 92, 92, 92, 92, 92, 92,
  92, 92, 92, 92, 92, 92, 92, 92, 92, 92, 92, 92, 92, 92, 92, 92,
  92, 92, 92, 92, 92, 92, 92, 92, 92, 92, 92, 92, 92, 92, 92, 92,
  92, 92, 92, 92, 92, 92, 92, 92, 92, 92, 92, 92, 92, 92, 92, 92,
  92, 92, 92, 92, 92, 92, 92, 92, 92, 92, 92, 92, 92, 92, 92, 92,
  92, 92, 92, 92, 92, 92, 92, 92, 92, 92, 92, 92, 92, 92, 92, 92,
  92, 92, 92, 92, 92, 92, 92, 92, 92, 92, 92, 92, 92, 92, 92, 92,
  92, 92, 92, 92, 92, 92, 92, 92, 92, 92, 92, 92, 92, 92, 92, 92,
  42, 234, 56, 49, 240, 152, 167, 186, 207, 244, 194, 116, 115, 100, 72, 250,
  137, 146, 130, 93, 219, 127, 129, 49, 209, 144, 17, 208, 61, 130, 218, 213,
  103, 12, 67, 139, 71, 181, 133, 40, 239, 223, 126, 227, 241, 102, 165, 30,
  83, 134, 126, 162, 255, 178, 56, 164, 193, 241, 210, 162, 246, 18, 135, 101]

/-- The second (padded) block of the outer hash input for abc. -/
def bOutAbc : List Nat := [
  42, 234, 56, 49, 240, 152, 167, 186, 207, 244, 194, 116, 115, 100, 72, 250,
  137, 146, 130, 93, 219, 127, 129, 49, 209, 144, 17, 208, 61, 130, 218, 213,
  103, 12, 67, 139, 71, 181, 133, 40, 239, 223, 126, 227, 241, 102, 165, 30,
  83, 134, 126, 162, 255, 178, 56, 164, 193, 241, 210, 162, 246, 18, 135, 101,
  128, 0, 0, 0, 0, 0, 0, 0, 0, 0, 0, 0, 0, 0, 0, 0,
  0, 0, 0, 0, 0, 0, 0, 0, 0, 0, 0, 0, 0, 0, 0, 0,
  0, 0, 0, 0, 0, 0, 0, 0, 0, 0, 0, 0, 0, 0, 0, 0,
  0, 0, 0, 0, 0, 0, 0, 0, 0, 0, 0, 0, 0, 0, 6, 0]

/-- The outer hash state after both blocks for abc. -/
def sFinalAbc : List Nat := [
  1784783270779289901,
  5394811518937905093,
  3409404706636643894,
  9480817945830589428,
  748440319388428804,
  11356686771215321394,
  29888494742174582,
  12600539414398534209]

/-- The HMAC-SHA512 digest for abc. -/
def digestAbc : List Nat := [
  24, 196, 210, 237, 183, 220, 1, 45, 74, 222, 56, 126, 88, 122, 183, 197,
  47, 80, 163, 132, 82, 159, 62, 54, 131, 146, 161, 176, 177, 97, 131, 244,
  10, 98, 254, 129, 76, 186, 42, 4, 157, 155, 14, 114, 183, 170, 201, 50,
  0, 106, 47, 109, 119, 250, 123, 118, 174, 222, 27, 214, 61, 136, 130, 65]

/-- ipad followed by the body abd. -/
def inMsgAbd : List Nat := [
  69, 83, 85, 68, 83, 66, 54, 54, 54, 54, 54, 54, 54, 54, 54, 54,
  54, 54, 54, 54, 54, 54, 54, 54, 54, 54, 54, 54, 54, 54, 54, 54,
  54, 54, 54, 54, 54, 54, 54, 54, 54, 54, 54, 54, 54, 54, 54, 54,
  54, 54, 54, 54, 54, 54, 54, 54, 54, 54, 54, 54, 54, 54, 54, 54,
  54, 54, 54, 54, 54, 54, 54, 54, 54, 54, 54, 54, 54, 54, 54, 54,
  54, 54, 54, 54, 54, 54, 54, 54, 54, 54, 54, 54, 54, 54, 54, 54,
  54, 54, 54, 54, 54, 54, 54, 54, 54, 54, 54, 54, 54, 54, 54, 54,
  54, 54, 54, 54, 54, 54, 54, 54, 54, 54, 54, 54, 54, 54, 54, 54,
  97, 98, 100]

/-- The second (padded) block of the inner hash input for abd. -/
def bInAbd : List Nat := [
  97, 98, 100, 128, 0, 0, 0, 0, 0, 0, 0, 0, 0, 0, 0, 0,
  0, 0, 0, 0, 0, 0, 0, 0, 0, 0, 0, 0, 0, 0, 0, 0,
  0, 0, 0, 0, 0, 0, 0, 0, 0, 0, 0, 0, 0, 0, 0, 0,
  0, 0, 0, 0, 0, 0, 0, 0, 0, 0, 0, 0, 0, 0, 0, 0,
  0, 0, 0, 0, 0, 0, 0, 0, 0, 0, 0, 0, 0, 0, 0, 0,
  0, 0, 0, 0, 0, 0, 0, 0, 0, 0, 0, 0, 0, 0, 0, 0,
  0, 0, 0, 0, 0, 0, 0, 0, 0, 0, 0, 0, 0, 0, 0, 0,
  0, 0, 0, 0, 0, 0, 0, 0, 0, 0, 0, 0, 0, 0, 4, 24]

/-- The inner hash state after both blocks for abd. -/
def sInnerAbd : List Nat := [
  2664799802752145224,
  16390601026199326323,
  11619111919204325089,
  8713563281727806088,
  6609223546849775133,
  1568254266127653371,
  12612924691717365179,
  11692931568605218133]

/-- The inner SHA-512 digest for abd. -/
def innerDigestAbd : List Nat := [
  36, 251, 69, 77, 72, 146, 151, 72, 227, 119, 28, 202, 205, 195, 142, 115,
  161, 63, 96, 186, 213, 174, 86, 225, 120, 236, 203, 163, 103, 69, 218, 136,
  91, 184, 173, 204, 119, 32, 206, 29, 21, 195, 142, 242, 50, 7, 153, 251,
  175, 10, 28, 46, 84, 145, 29, 187, 162, 69, 163, 79, 81, 170, 69, 85]

/-- opad followed by the inner digest for abd. -/
def outMsgAbd : List Nat := [
  47, 57, 63, 46, 57, 40, 92, 92, 92, 92, 92, 92, 92, 92, 92, 92,
  92, 92, 92, 92, 92, 92, 92, 92, 92, 92, 92, 92, 92, 92, 92, 92,
  92, 92, 92, 92, 92, 92, 92, 92, 92, 92, 92, 92, 92, 92, 92, 92,
  92, 92, 92, 92, 92, 92, 92, 92, 92, 92, 92, 92, 92, 92, 92, 92,
  92, 92, 92, 92, 92, 92, 92, 92, 92, 92, 92, 92, 92, 92, 92, 92,
  92, 92, 92, 92, 92, 92, 92, 92, 92, 92, 92, 92, 92, 92, 92, 92,
  92, 92, 92, 92, 92, 92, 92, 92, 92, 92, 92, 92, 92, 92, 92, 92,
  92, 92, 92, 92, 92, 92, 92, 92, 92, 92, 92, 92, 92, 92, 92, 92,
  36, 251, 69, 77, 72, 146, 151, 72, 227, 119, 28, 202, 205, 195, 142, 115,
  161, 63, 96, 186, 213, 174, 86, 225, 120, 236, 203, 163, 103, 69, 218, 136,
  91, 184, 173, 204, 119, 32, 206, 29, 21, 195, 142, 242, 50, 7, 153, 251,
  175, 10, 28, 46, 84, 145, 29, 187, 162, 69, 163, 79, 81, 170, 69, 85]

/-- The second (padded) block of the outer hash input for abd. -/
def bOutAbd : List Nat := [
  36, 251, 69, 77, 72, 146, 151, 72, 227, 119, 28, 202, 205, 195, 142, 115,
  161, 63, 96, 186, 213, 174, 86, 225, 120, 236, 203, 163, 103, 69, 218, 136,
  91, 184, 173, 204, 119, 32, 206, 29, 21, 195, 142, 242, 50, 7, 153, 251,
  175, 10, 28, 46, 84, 145, 29, 187, 162, 69, 163, 79, 81, 170, 69, 85,
  128, 0, 0, 0, 0, 0, 0, 0, 0, 0, 0, 0, 0, 0, 0, 0,
  0, 0, 0, 0, 0, 0, 0, 0, 0, 0, 0, 0, 0, 0, 0, 0,
  0, 0, 0, 0, 0, 0, 0, 0, 0, 0, 0, 0, 0, 0, 0, 0,
  0, 0, 0, 0, 0, 0, 0, 0, 0, 0, 0, 0, 0, 0, 6, 0]

/-- The outer hash state after both blocks for abd. -/
def sFinalAbd : List Nat := [
  522713755730047162,
  10446434039138527616,
  12061056614135025604,
  9276601266975702244,
  5159363978184475948,
  11276190985200279105,
  16621698339685723318,
  14448312876052408000]

/-- The HMAC-SHA512 digest for abd. -/
def digestAbd : List Nat := [
  7, 65, 13, 100, 49, 127, 240, 186, 144, 249, 48, 105, 56, 102, 169, 128,
  167, 97, 123, 22, 157, 100, 207, 196, 128, 189, 27, 179, 233, 6, 124, 228,
  71, 153, 190, 51, 226, 161, 197, 44, 156, 125, 19, 245, 12, 83, 30, 65,
  230, 172, 34, 147, 12, 170, 236, 182, 200, 130, 184, 2, 164, 206, 102, 192]

set_option maxRecDepth 10000 in
theorem keyLit_eq : utf8Bytes "secret" = keyLit := by decide

set_option maxRecDepth 10000 in
theorem hmacKeyBlock_keyLit : hmacKeyBlock keyLit = kLit := by decide

set_option maxRecDepth 10000 in
theorem ipad_of_kLit : kLit.map (fun b => b ^^^ 0x36) = ipadLit := by decide

set_option maxRecDepth 10000 in
theorem opad_of_kLit : kLit.map (fun b => b ^^^ 0x5c) = opadLit := by decide

set_option maxRecDepth 100000 in
set_option maxHeartbeats 1000000 in
theorem compress_ipad : sha512Compress H512init ipadLit = sIpadLit := by decide

set_option maxRecDepth 100000 in
set_option maxHeartbeats 1000000 in
theorem compress_opad : sha512Compress H512init opadLit = sOpadLit := by decide

set_option maxRecDepth 10000 in
theorem catInAbc : ipadLit ++ abcBody = inMsgAbc := by decide

set_option maxRecDepth 100000 in
set_option maxHeartbeats 1000000 in
theorem blocksInAbc : sha512Blocks inMsgAbc = [ipadLit, bInAbc] := by decide

set_option maxRecDepth 100000 in
set_option maxHeartbeats 1000000 in
theorem compressInAbc : sha512Compress sIpadLit bInAbc = sInnerAbc := by decide

set_option maxRecDepth 10000 in
theorem bytesInAbc : wordsToBytes sInnerAbc = innerDigestAbc := by decide

theorem shaInAbc : sha512 (ipadLit ++ abcBody) = innerDigestAbc := by
  unfold sha512
  rw [catInAbc, blocksInAbc]
  simp only [List.foldl_cons, List.foldl_nil]
  rw [compress_ipad, compressInAbc, bytesInAbc]

set_option maxRecDepth 10000 in
theorem catOutAbc : opadLit ++ innerDigestAbc = outMsgAbc := by decide

set_option maxRecDepth 100000 in
set_option maxHeartbeats 1000000 in
theorem blocksOutAbc : sha512Blocks outMsgAbc = [opadLit, bOutAbc] := by decide

set_option maxRecDepth 100000 in
set_option maxHeartbeats 1000000 in
theorem compressOutAbc : sha512Compress sOpadLit bOutAbc = sFinalAbc := by decide

set_option maxRecDepth 10000 in
theorem bytesOutAbc : wordsToBytes sFinalAbc = digestAbc := by decide

theorem shaOutAbc : sha512 (opadLit ++ innerDigestAbc) = digestAbc := by
  unfold sha512
  rw [catOutAbc, blocksOutAbc]
  simp only [List.foldl_cons, List.foldl_nil]
  rw [compress_opad, compressOutAbc, bytesOutAbc]

theorem hmacAbc : hmacSha512 (utf8Bytes "secret") abcBody = digestAbc := by
  rw [keyLit_eq]
  unfold hmacSha512
  rw [hmacKeyBlock_keyLit, ipad_of_kLit, opad_of_kLit, shaInAbc, shaOutAbc]

set_option maxRecDepth 10000 in
theorem catInAbd : ipadLit ++ abdBody = inMsgAbd := by decide

set_option maxRecDepth 100000 in
set_option maxHeartbeats 1000000 in
theorem blocksInAbd : sha512Blocks inMsgAbd = [ipadLit, bInAbd] := by decide

set_option maxRecDepth 100000 in
set_option maxHeartbeats 1000000 in
theorem compressInAbd : sha512Compress sIpadLit bInAbd = sInnerAbd := by decide

set_option maxRecDepth 10000 in
theorem bytesInAbd : wordsToBytes sInnerAbd = innerDigestAbd := by decide

theorem shaInAbd : sha512 (ipadLit ++ abdBody) = innerDigestAbd := by
  unfold sha512
  rw [catInAbd, blocksInAbd]
  simp only [List.foldl_cons, List.foldl_nil]
  rw [compress_ipad, compressInAbd, bytesInAbd]

set_option maxRecDepth 10000 in
theorem catOutAbd : opadLit ++ innerDigestAbd = outMsgAbd := by decide

set_option maxRecDepth 100000 in
set_option maxHeartbeats 1000000 in
theorem blocksOutAbd : sha512Blocks outMsgAbd = [opadLit, bOutAbd] := by decide

set_option maxRecDepth 100000 in
set_option maxHeartbeats 1000000 in
theorem compressOutAbd : sha512Compress sOpadLit bOutAbd = sFinalAbd := by decide

set_option maxRecDepth 10000 in
theorem bytesOutAbd : wordsToBytes sFinalAbd = digestAbd := by decide

theorem shaOutAbd : sha512 (opadLit ++ innerDigestAbd) = digestAbd := by
  unfold sha512
  rw [catOutAbd, blocksOutAbd]
  simp only [List.foldl_cons, List.foldl_nil]
  rw [compress_opad, compressOutAbd, bytesOutAbd]

theorem hmacAbd : hmacSha512 (utf8Bytes "secret") abdBody = digestAbd := by
  rw [keyLit_eq]
  unfold hmacSha512
  rw [hmacKeyBlock_keyLit, ipad_of_kLit, opad_of_kLit, shaInAbd, shaOutAbd]

set_option maxRecDepth 10000 in
theorem hexAbc_eq : hexOfBytes digestAbc = "18c4d2edb7dc012d4ade387e587ab7c52f50a384529f3e368392a1b0b16183f40a62fe814cba2a049d9b0e72b7aac932006a2f6d77fa7b76aede1bd63d888241" := by decide

set_option maxRecDepth 10000 in
theorem hexAbd_eq : hexOfBytes digestAbd = "07410d64317ff0ba90f930693866a980a7617b169d64cfc480bd1bb3e9067ce44799be33e2a1c52c9c7d13f50c531e41e6ac22930caaecb6c882b802a4ce66c0" := by decide

theorem goodSig_eq : goodSig = "18c4d2edb7dc012d4ade387e587ab7c52f50a384529f3e368392a1b0b16183f40a62fe814cba2a049d9b0e72b7aac932006a2f6d77fa7b76aede1bd63d888241" := by
  unfold goodSig
  rw [hmacAbc, hexAbc_eq]

/-- C5: verify_signature accepts exactly the hex HMAC-SHA512 of the raw
body under the configured secret, passes unconditionally when no secret is
configured, and on a concrete secret and body a one-byte mutation of the
body makes the previously valid signature fail. -/
theorem verify_signature_spec (secret sig : String) (body : List Nat)
    (hs : secret ≠ "") :
    (verify_signature secret sig body = true ↔
       sig = hexOfBytes (hmacSha512 (utf8Bytes secret) body)) ∧
    verify_signature "" sig body = true ∧
    verify_signature "secret" goodSig abcBody = true ∧
    verify_signature "secret" goodSig abdBody = false := by
  refine ⟨?_, ?_, ?_, ?_⟩
  · simp [verify_signature, hs]
  · simp [verify_signature]
  · unfold verify_signature
    rw [if_neg (by decide : ¬("secret" : String) = "")]
    exact beq_self_eq_true goodSig
  · unfold verify_signature
    rw [if_neg (by decide : ¬("secret" : String) = "")]
    rw [hmacAbd, hexAbd_eq, goodSig_eq]
    decide

/-- C5 witness: the characterization applied at the concrete secret,
signature and bodies. -/
theorem verify_signature_spec_witness :
    ("secret" ≠ "") ∧
    ((verify_signature "secret" goodSig abcBody = true ↔
        goodSig = hexOfBytes (hmacSha512 (utf8Bytes "secret") abcBody)) ∧
     verify_signature "" goodSig abcBody = true ∧
     verify_signature "secret" goodSig abcBody = true ∧
     verify_signature "secret" goodSig abdBody = false) :=
  ⟨by decide, verify_signature_spec "secret" goodSig abcBody (by decide)⟩

end StakeAware
